import Mathlib

/-!
Verification of the SCXcore `scx_ssl_config` certificate-generation subsystem
(`source/code/shared/tools/scx_ssl_config/scxsslcert.h`).

The header declares the certificate generator (`SCXSSLCertificate`), the
localized-domain wrapper (`SCXSSLCertificateLocalizedDomain` with its
`AutoClose` RAII helper), the library-candidate comparator
(`IntegerSuffixComparator` / `SuffixSortedFileSet`) and the
`SCXErrnoUserNameException` error class.  Only the exception class and the
`AutoClose` constructor have bodies in the header; the remaining behaviour is
modelled from the specification, as marked on each definition below.
-/

namespace SCXSSL

/-! ## Library resolver: integer-suffix candidate ranking -/

/-- Numeric value of a list of decimal digit characters. -/
def digitsToNat (ds : List Char) : Nat :=
  ds.foldl (fun acc c => acc * 10 + (c.toNat - '0'.toNat)) 0

/-- Modelled from the spec: the body of `IntegerSuffixComparator` is not under
`src/` (the header only declares it).  The spec describes candidates carrying
"versionSuffix: integer parsed from the trailing dot-separated numeric suffix
of the file name".  Returns the parsed suffix, or `none` when the file name
has no trailing dot-separated integer suffix. -/
def suffixOf (name : String) : Option Nat :=
  let rev := name.toList.reverse
  let digits := rev.takeWhile Char.isDigit
  let rest := rev.dropWhile Char.isDigit
  match digits, rest with
  | [], _ => none
  | _ :: _, c :: _ => if c = '.' then some (digitsToNat digits.reverse) else none
  | _ :: _, [] => none

/-- Modelled from the spec: the body of `IntegerSuffixComparator::IsGoodFileName`
is not under `src/`.  Per the spec, "a file name without a valid trailing
integer suffix is excluded from candidacy". -/
def IsGoodFileName (name : String) : Bool :=
  (suffixOf name).isSome

/-- Modelled from the spec: the body of `IntegerSuffixComparator::operator()`
is not under `src/`.  The spec orders candidates "by descending version
suffix, ties broken by filename ordering", and the comparator "is purely
numeric on the suffix, not lexicographic on the full name".  Returns `true`
when `a` is ranked strictly before `b`. -/
def comparatorLt (a b : String) : Bool :=
  match suffixOf a, suffixOf b with
  | some na, some nb =>
      if na = nb then decide (a < b) else decide (nb < na)
  | _, _ => false

/-- Ordered insertion of one element into a list sorted by `lt`; models
`std::set::insert` for the ordering maintained by the comparator. -/
def insertRanked (lt : String → String → Bool) (x : String) :
    List String → List String
  | [] => [x]
  | y :: ys => if lt x y then x :: y :: ys else y :: insertRanked lt x ys

/-- Modelled from the spec: `Discover` "for each directory, lists files,
retains only those whose name matches the expected library-name pattern with
a trailing `.<integer>` version suffix ... and inserts into a set ordered by
descending integer value".  The resulting `SuffixSortedFileSet` is modelled
as the ranked list of the good file names, highest version first. -/
def SuffixSortedFileSet (files : List String) : List String :=
  (files.filter IsGoodFileName).foldr (insertRanked comparatorLt) []

/-- Modelled from the spec: `Load()` "iterates candidates
highest-version-first"; the first attempted candidate is the head of the
ranked set. -/
def firstAttempted (files : List String) : Option String :=
  (SuffixSortedFileSet files).head?

theorem mem_insertRanked (lt : String → String → Bool) (x y : String)
    (l : List String) : y ∈ insertRanked lt x l ↔ y = x ∨ y ∈ l := by
  induction l with
  | nil => simp [insertRanked]
  | cons z zs ih =>
      simp only [insertRanked]
      split
      · simp [List.mem_cons]
      · simp only [List.mem_cons, ih]
        tauto

theorem mem_of_mem_ranked (lt : String → String → Bool) (y : String)
    (xs : List String) : y ∈ xs.foldr (insertRanked lt) [] → y ∈ xs := by
  induction xs with
  | nil => intro h; simp at h
  | cons x l ih =>
      intro h
      rcases (mem_insertRanked lt x y _).mp h with h' | h'
      · simp [h']
      · exact List.mem_cons_of_mem _ (ih h')

/-! ## Localized-domain generation: library handle discipline and conversion -/

/-- Observable events of one localized-domain generation run. -/
inductive LibEvent
  | loadLib      -- GetLibIDN returned a non-null library handle
  | convertCall  -- the resolved IDN conversion entry point was invoked
  | closeLib     -- CloseLibIDN was invoked on the handle (AutoClose)
  | doGenerate   -- base-class certificate generation was entered
deriving DecidableEq

/-- Outcome of invoking the IDN conversion entry point on one input. -/
inductive ConvertOutcome
  | converted (ascii : String)  -- entry point returned success status
  | errStatus (code : Int)      -- entry point returned an error status
  | thrown (e : String)         -- an exception propagates out of the scope
deriving DecidableEq

/-- Environment of the dynamic-library machinery: whether some candidate
library loads, and, when the conversion entry point resolves, what invoking
it on a given input does (`entry = none` models an absent entry point). -/
structure LibEnv where
  loads : Bool
  entry : Option (String → ConvertOutcome)

/-- Diagnostic recorded when no conversion library could be loaded. -/
def libUnavailableDiag : String :=
  "could not load an idn conversion library, using raw domain name"

/-- Diagnostic recorded when the entry point is absent from the library. -/
def entryAbsentDiag : String :=
  "idna_to_ascii_lz entry point not found, using raw domain name"

/-- Diagnostic recorded when the conversion entry point returns an error. -/
def conversionFailedDiag : String :=
  "idn conversion of domain name failed, using raw domain name"

/-- Modelled from the spec: the body of
`SCXSSLCertificateLocalizedDomain::Generate(std::ostringstream& verbage)` is
not under `src/` (the header only declares it).  Per the spec, the wrapper
loads the IDN library best-effort, guards the handle with `AutoClose` so the
close routine runs on every exit path from the acquiring scope, resolves the
conversion entry point, converts the raw domain name — falling back to the
raw text plus an appended diagnostic on any failure — and proceeds to
certificate generation unless an exception propagates.  Returns the event
trace paired with either the propagated exception or the pair (domain name
used, collected diagnostic text), where `verbage` is the diagnostic text
already collected before the call. -/
def generateLocalized (env : LibEnv) (raw : String) (verbage : String) :
    List LibEvent × Except String (String × String) :=
  if env.loads then
    let inner : List LibEvent × Except String (String × String) :=
      match env.entry with
      | none => ([], .ok (raw, verbage ++ entryAbsentDiag))
      | some f =>
        match f raw with
        | .converted ascii => ([.convertCall], .ok (ascii, verbage))
        | .errStatus _ => ([.convertCall], .ok (raw, verbage ++ conversionFailedDiag))
        | .thrown e => ([.convertCall], .error e)
    let guarded : List LibEvent × Except String (String × String) :=
      (LibEvent.loadLib :: inner.1 ++ [LibEvent.closeLib], inner.2)
    match guarded.2 with
    | .error e => (guarded.1, .error e)
    | .ok (dom, diag) => (guarded.1 ++ [.doGenerate], .ok (dom, diag))
  else
    ([.doGenerate], .ok (raw, verbage ++ libUnavailableDiag))

/-- C2: On every exit path of `SCXSSLCertificateLocalizedDomain::Generate` —
normal return, early return on failure, and propagated exception — the
library handle close routine runs exactly once per successful load, with no
double-free and no leak: the trace carries exactly one `closeLib` event when
a library was loaded and none otherwise, and close events never outnumber
load events. -/
theorem libidn_closed_exactly_once (env : LibEnv) (raw verbage : String) :
    (generateLocalized env raw verbage).1.count LibEvent.closeLib
        = (if env.loads then 1 else 0)
      ∧ (generateLocalized env raw verbage).1.count LibEvent.closeLib
        = (generateLocalized env raw verbage).1.count LibEvent.loadLib := by
  by_cases hl : env.loads
  · rcases henv : env.entry with _ | f
    · simp [generateLocalized, hl, henv]
    · rcases hf : f raw with ascii | code | e <;>
        simp [generateLocalized, hl, henv, hf, List.count_cons, List.count_append]
  · simp [generateLocalized, hl, List.count_cons]

/-- C5: Whenever the IDN conversion entry point is invoked and returns an
error status, the domain name used for the certificate is the original raw
text unchanged, a diagnostic describing the failure is appended to the
collected diagnostic text, and certificate generation is not aborted. -/
theorem conversion_failure_uses_raw_text (env : LibEnv)
    (f : String → ConvertOutcome) (raw verbage : String) (code : Int)
    (hl : env.loads = true) (he : env.entry = some f)
    (hf : f raw = ConvertOutcome.errStatus code) :
    (generateLocalized env raw verbage).2
        = Except.ok (raw, verbage ++ conversionFailedDiag)
      ∧ conversionFailedDiag ≠ ""
      ∧ LibEvent.convertCall ∈ (generateLocalized env raw verbage).1
      ∧ LibEvent.doGenerate ∈ (generateLocalized env raw verbage).1 := by
  refine ⟨?_, by decide, ?_, ?_⟩ <;>
    simp [generateLocalized, hl, he, hf]

/-- C5 witness: a conversion entry point that always reports error status 1
leaves the concrete raw domain unchanged with a diagnostic appended, and
generation proceeds. -/
theorem conversion_failure_witness :
    ((⟨true, some fun _ => ConvertOutcome.errStatus 1⟩ : LibEnv).loads = true)
      ∧ ((generateLocalized ⟨true, some fun _ => ConvertOutcome.errStatus 1⟩
            "bücher.example" "").2
          = Except.ok ("bücher.example", "" ++ conversionFailedDiag)
        ∧ conversionFailedDiag ≠ ""
        ∧ LibEvent.convertCall
            ∈ (generateLocalized ⟨true, some fun _ => ConvertOutcome.errStatus 1⟩
                "bücher.example" "").1
        ∧ LibEvent.doGenerate
            ∈ (generateLocalized ⟨true, some fun _ => ConvertOutcome.errStatus 1⟩
                "bücher.example" "").1) :=
  ⟨rfl, conversion_failure_uses_raw_text _ (fun _ => ConvertOutcome.errStatus 1)
    "bücher.example" "" 1 rfl rfl rfl⟩

/-- C3: The `IntegerSuffixComparator` orders candidate library file paths by
descending numeric value of the trailing dot-separated integer suffix, not
lexicographically: for candidates lib.so.2, lib.so.10, lib.so.9 the
`SuffixSortedFileSet` ranks them 10 > 9 > 2 and lib.so.10 is attempted
first. -/
theorem integerSuffix_ranks_numerically_descending :
    SuffixSortedFileSet ["lib.so.2", "lib.so.10", "lib.so.9"]
        = ["lib.so.10", "lib.so.9", "lib.so.2"]
      ∧ firstAttempted ["lib.so.2", "lib.so.10", "lib.so.9"] = some "lib.so.10"
      ∧ suffixOf "lib.so.10" = some 10 ∧ suffixOf "lib.so.9" = some 9
      ∧ suffixOf "lib.so.2" = some 2
      ∧ comparatorLt "lib.so.10" "lib.so.9" = true
      ∧ ("lib.so.10" < "lib.so.9") = True := by
  refine ⟨by decide, by decide, by decide, by decide, by decide, by decide, ?_⟩
  simp only [eq_iff_iff, iff_true, String.lt_iff_toList_lt]
  decide

/-- C8: Every file whose name lacks a valid trailing dot-separated integer
suffix is excluded from library candidacy: `IsGoodFileName` rejects it, it is
never a member of the `SuffixSortedFileSet`, and it is never the first
candidate attempted for loading. -/
theorem bad_suffix_excluded_from_candidacy (name : String) (files : List String)
    (hbad : IsGoodFileName name = false) :
    name ∉ SuffixSortedFileSet files ∧ firstAttempted files ≠ some name := by
  have hmem : name ∉ SuffixSortedFileSet files := by
    intro hmem
    have hin := mem_of_mem_ranked comparatorLt name _ hmem
    have hgood := List.of_mem_filter hin
    rw [hbad] at hgood
    exact Bool.false_ne_true hgood
  refine ⟨hmem, fun hfirst => hmem ?_⟩
  exact List.mem_of_mem_head? (by rw [firstAttempted] at hfirst; exact hfirst)

/-- C8 witness: the suffix-less name libcidn.so is rejected and never ranked
among concrete candidates. -/
theorem bad_suffix_excluded_witness :
    IsGoodFileName "libcidn.so" = false
      ∧ "libcidn.so" ∉ SuffixSortedFileSet ["libcidn.so", "libcidn.so.2"]
      ∧ firstAttempted ["libcidn.so", "libcidn.so.2"] ≠ some "libcidn.so" :=
  ⟨by decide,
   (bad_suffix_excluded_from_candidacy "libcidn.so"
      ["libcidn.so", "libcidn.so.2"] (by decide)).1,
   (bad_suffix_excluded_from_candidacy "libcidn.so"
      ["libcidn.so", "libcidn.so.2"] (by decide)).2⟩

/-- C10: `IntegerSuffixComparator` is a strict ordering on paths with valid
integer suffixes: comparing a path with itself yields false (irreflexivity)
and at most one of compare(a,b), compare(b,a) holds (asymmetry), as required
for `SuffixSortedFileSet` to hold each candidate at most once in a unique
order. -/
theorem comparator_strict_ordering (a b : String)
    (ha : IsGoodFileName a = true) (hb : IsGoodFileName b = true) :
    comparatorLt a a = false
      ∧ (comparatorLt a b = true → comparatorLt b a = false) := by
  rw [IsGoodFileName, Option.isSome_iff_exists] at ha hb
  obtain ⟨na, hna⟩ := ha
  obtain ⟨nb, hnb⟩ := hb
  constructor
  · simp only [comparatorLt, hna, if_pos rfl]
    exact decide_eq_false (lt_irrefl a)
  · intro hab
    simp only [comparatorLt, hna, hnb] at hab ⊢
    by_cases he : na = nb
    · rw [if_pos he] at hab
      rw [if_pos he.symm]
      exact decide_eq_false (lt_asymm (of_decide_eq_true hab))
    · rw [if_neg he] at hab
      rw [if_neg (fun h => he h.symm)]
      exact decide_eq_false (Nat.lt_asymm (of_decide_eq_true hab))

/-- C10 witness: irreflexivity and asymmetry hold at the concrete good
candidates lib.so.9 and lib.so.10. -/
theorem comparator_strict_ordering_witness :
    IsGoodFileName "lib.so.9" = true ∧ IsGoodFileName "lib.so.10" = true
      ∧ comparatorLt "lib.so.9" "lib.so.9" = false
      ∧ (comparatorLt "lib.so.9" "lib.so.10" = true
          → comparatorLt "lib.so.10" "lib.so.9" = false) :=
  ⟨by decide, by decide,
   (comparator_strict_ordering "lib.so.9" "lib.so.10" (by decide) (by decide)).1,
   (comparator_strict_ordering "lib.so.9" "lib.so.10" (by decide) (by decide)).2⟩

/-! ## Certificate generator -/

/-- Exception signalled on fatal SSL-generation failures, mirroring
`SCXSSLException` (header lines 31-50): it carries a human-readable reason. -/
structure SCXSSLException where
  m_Reason : String
deriving DecidableEq

/-- Certificate generator state, mirroring the data members of
`SCXSSLCertificate` (header lines 87-96), in the order of the constructor
parameters (header lines 99-101). -/
structure SCXSSLCertificate where
  m_KeyPath : String
  m_CertPath : String
  m_startDays : Int
  m_endDays : Int
  m_hostname : String
  m_domainname : String
  m_bits : Int
  m_clientCert : Bool

/-- Constructor of `SCXSSLCertificate` (header lines 99-101): stores the
caller-supplied paths, validity offsets, identity fields, key size and
client-certificate flag. -/
def SCXSSLCertificate.make (keyPath certPath : String) (startDays endDays : Int)
    (hostname domainname : String) (bits : Int) (clientCert : Bool) :
    SCXSSLCertificate :=
  ⟨keyPath, certPath, startDays, endDays, hostname, domainname, bits, clientCert⟩

/-- External cryptographic capability and filesystem, as seen by one
generation run: which key sizes the capability supports and whether each
fallible step succeeds. -/
structure CryptoEnv where
  supportedBits : Int → Bool
  keygenOk : Bool
  requestOk : Bool
  signOk : Bool
  writeKeyOk : Bool
  writeCertOk : Bool

/-- Completed steps of the linear generation state machine. -/
inductive GenEvent
  | seed          -- entropy loaded (Seeded)
  | keygen        -- RSA key pair generated (KeyGenerated)
  | buildRequest  -- certificate request built (RequestBuilt)
  | sign          -- request self-signed (SelfSigned)
  | writeKey      -- key file written
  | writeCert     -- certificate file written
deriving DecidableEq

/-- Seconds in one whole day, used to turn day offsets into times. -/
def secondsPerDay : Int := 86400

/-- The final self-signed certificate: subject name, validity window (seconds
since epoch) and key size. -/
structure Certificate where
  subject : String
  notBefore : Int
  notAfter : Int
  keyBits : Int
deriving DecidableEq

/-- Modelled from the spec: the body of `SCXSSLCertificate::DoGenerate` is not
under `src/` (the header only declares it).  Per the spec the generation
sequence is a linear state machine — Seeded, KeyGenerated, SubjectResolved,
RequestBuilt, SelfSigned, Persisted — validating the validity offsets
(`startDaysOffset < endDaysOffset` required) and the key bit length against
the supported set before any key material is generated, signing with validity
window [now + startDaysOffset, now + endDaysOffset], and aborting the whole
sequence with an `SCXSSLException` on failure at any non-terminal state.
Returns the completed-step trace and either the exception or the final
certificate. -/
def DoGenerate (c : SCXSSLCertificate) (env : CryptoEnv) (now : Int) :
    List GenEvent × Except SCXSSLException Certificate :=
  if ¬ c.m_startDays < c.m_endDays then
    ([], .error ⟨"invalid certificate validity window"⟩)
  else if ¬ env.supportedBits c.m_bits then
    ([], .error ⟨"unsupported key bit length"⟩)
  else if ¬ env.keygenOk then
    ([.seed], .error ⟨"error generating RSA key pair"⟩)
  else if ¬ env.requestOk then
    ([.seed, .keygen], .error ⟨"error building certificate request"⟩)
  else if ¬ env.signOk then
    ([.seed, .keygen, .buildRequest], .error ⟨"error signing certificate request"⟩)
  else if ¬ env.writeKeyOk then
    ([.seed, .keygen, .buildRequest, .sign], .error ⟨"error writing key file"⟩)
  else if ¬ env.writeCertOk then
    ([.seed, .keygen, .buildRequest, .sign, .writeKey],
     .error ⟨"error writing certificate file"⟩)
  else
    ([.seed, .keygen, .buildRequest, .sign, .writeKey, .writeCert],
     .ok ⟨c.m_hostname ++ "." ++ c.m_domainname,
          now + c.m_startDays * secondsPerDay,
          now + c.m_endDays * secondsPerDay,
          c.m_bits⟩)

/-- A generation result is authoritative only when the whole sequence
succeeded; a failed run yields no certificate that looks valid. -/
def authoritativeOutput (r : Except SCXSSLException Certificate) :
    Option Certificate :=
  match r with
  | .ok cert => some cert
  | .error _ => none

/-- C1: With `startDaysOffset < endDaysOffset` (and the cryptographic steps
available), the constructor stores the offsets in `m_startDays` and
`m_endDays`, and the certificate produced by `Generate` has validity window
exactly [now + startDaysOffset days, now + endDaysOffset days] relative to
generation time. -/
theorem validity_window_from_offsets (keyPath certPath : String)
    (startDays endDays : Int) (hostname domainname : String) (bits : Int)
    (clientCert : Bool) (env : CryptoEnv) (now : Int)
    (hdays : startDays < endDays)
    (hbits : env.supportedBits bits = true)
    (hok : env.keygenOk = true ∧ env.requestOk = true ∧ env.signOk = true
            ∧ env.writeKeyOk = true ∧ env.writeCertOk = true) :
    (SCXSSLCertificate.make keyPath certPath startDays endDays hostname
        domainname bits clientCert).m_startDays = startDays
      ∧ (SCXSSLCertificate.make keyPath certPath startDays endDays hostname
          domainname bits clientCert).m_endDays = endDays
      ∧ ∃ cert,
          (DoGenerate (SCXSSLCertificate.make keyPath certPath startDays
              endDays hostname domainname bits clientCert) env now).2
            = Except.ok cert
          ∧ cert.notBefore = now + startDays * secondsPerDay
          ∧ cert.notAfter = now + endDays * secondsPerDay := by
  obtain ⟨h1, h2, h3, h4, h5⟩ := hok
  refine ⟨rfl, rfl,
    ⟨hostname ++ "." ++ domainname, now + startDays * secondsPerDay,
      now + endDays * secondsPerDay, bits⟩, ?_, rfl, rfl⟩
  simp [DoGenerate, SCXSSLCertificate.make, hdays, hbits, h1, h2, h3, h4, h5]

/-- C1 witness: generating with offsets 0 and 365 at time 1000 under a fully
available capability yields a window of exactly [1000, 1000 + 365 days]. -/
theorem validity_window_witness :
    (0 : Int) < 365
      ∧ ((⟨fun _ => true, true, true, true, true, true⟩ : CryptoEnv).supportedBits
          2048 = true)
      ∧ ((SCXSSLCertificate.make "k.pem" "c.pem" 0 365 "host1" "example.com"
            2048 false).m_startDays = 0
        ∧ (SCXSSLCertificate.make "k.pem" "c.pem" 0 365 "host1" "example.com"
            2048 false).m_endDays = 365
        ∧ ∃ cert,
            (DoGenerate (SCXSSLCertificate.make "k.pem" "c.pem" 0 365 "host1"
                "example.com" 2048 false)
              ⟨fun _ => true, true, true, true, true, true⟩ 1000).2
              = Except.ok cert
            ∧ cert.notBefore = 1000 + 0 * secondsPerDay
            ∧ cert.notAfter = 1000 + 365 * secondsPerDay) :=
  ⟨by decide, rfl,
   validity_window_from_offsets "k.pem" "c.pem" 0 365 "host1" "example.com"
     2048 false ⟨fun _ => true, true, true, true, true, true⟩ 1000
     (by decide) rfl ⟨rfl, rfl, rfl, rfl, rfl⟩⟩

/-- C6: With `startDaysOffset >= endDaysOffset`, generation fails fast: the
run returns an error with an empty step trace, so in particular no key
material is ever generated. -/
theorem invalid_window_fails_fast (c : SCXSSLCertificate) (env : CryptoEnv)
    (now : Int) (h : c.m_endDays ≤ c.m_startDays) :
    (DoGenerate c env now).1 = []
      ∧ GenEvent.keygen ∉ (DoGenerate c env now).1
      ∧ ∃ e, (DoGenerate c env now).2 = Except.error e := by
  have hnot : ¬ c.m_startDays < c.m_endDays := not_lt.mpr h
  refine ⟨?_, ?_, ?_⟩ <;> simp [DoGenerate, hnot]

/-- C6 witness: equal offsets 30 and 30 fail with no key-generation step even
when every cryptographic step would succeed. -/
theorem invalid_window_witness :
    ((SCXSSLCertificate.make "k.pem" "c.pem" 30 30 "host1" "example.com" 2048
        false).m_endDays
      ≤ (SCXSSLCertificate.make "k.pem" "c.pem" 30 30 "host1" "example.com"
          2048 false).m_startDays)
      ∧ ((DoGenerate (SCXSSLCertificate.make "k.pem" "c.pem" 30 30 "host1"
            "example.com" 2048 false)
            ⟨fun _ => true, true, true, true, true, true⟩ 0).1 = []
        ∧ GenEvent.keygen
            ∉ (DoGenerate (SCXSSLCertificate.make "k.pem" "c.pem" 30 30 "host1"
                "example.com" 2048 false)
                ⟨fun _ => true, true, true, true, true, true⟩ 0).1
        ∧ ∃ e, (DoGenerate (SCXSSLCertificate.make "k.pem" "c.pem" 30 30
                  "host1" "example.com" 2048 false)
                  ⟨fun _ => true, true, true, true, true, true⟩ 0).2
                = Except.error e) :=
  ⟨le_refl 30,
   invalid_window_fails_fast
     (SCXSSLCertificate.make "k.pem" "c.pem" 30 30 "host1" "example.com" 2048
       false)
     ⟨fun _ => true, true, true, true, true, true⟩ 0 (le_refl 30)⟩

/-- C7: Whenever generation fails at a non-terminal state, the whole sequence
aborts with a single `SCXSSLException` carrying a nonempty human-readable
reason, no authoritative certificate is produced, and the key and certificate
files were not both written. -/
theorem generation_failure_aborts (c : SCXSSLCertificate) (env : CryptoEnv)
    (now : Int) (e : SCXSSLException)
    (hfail : (DoGenerate c env now).2 = Except.error e) :
    e.m_Reason ≠ ""
      ∧ authoritativeOutput (DoGenerate c env now).2 = none
      ∧ ¬ (GenEvent.writeKey ∈ (DoGenerate c env now).1
            ∧ GenEvent.writeCert ∈ (DoGenerate c env now).1) := by
  rw [DoGenerate] at hfail ⊢
  split_ifs at hfail ⊢ <;>
    simp_all [authoritativeOutput] <;>
    (rw [show e = ⟨_⟩ from hfail.symm] ; decide)

/-- C7 witness: a run whose signing step fails aborts with a nonempty reason,
yields no authoritative output, and never wrote both files. -/
theorem generation_failure_witness :
    ((DoGenerate (SCXSSLCertificate.make "k.pem" "c.pem" 0 365 "host1"
          "example.com" 2048 false)
          ⟨fun _ => true, true, true, false, true, true⟩ 0).2
        = Except.error ⟨"error signing certificate request"⟩)
      ∧ ((⟨"error signing certificate request"⟩ : SCXSSLException).m_Reason ≠ ""
        ∧ authoritativeOutput
            (DoGenerate (SCXSSLCertificate.make "k.pem" "c.pem" 0 365 "host1"
                "example.com" 2048 false)
                ⟨fun _ => true, true, true, false, true, true⟩ 0).2 = none
        ∧ ¬ (GenEvent.writeKey
              ∈ (DoGenerate (SCXSSLCertificate.make "k.pem" "c.pem" 0 365
                  "host1" "example.com" 2048 false)
                  ⟨fun _ => true, true, true, false, true, true⟩ 0).1
            ∧ GenEvent.writeCert
              ∈ (DoGenerate (SCXSSLCertificate.make "k.pem" "c.pem" 0 365
                  "host1" "example.com" 2048 false)
                  ⟨fun _ => true, true, true, false, true, true⟩ 0).1)) :=
  ⟨rfl,
   generation_failure_aborts
     (SCXSSLCertificate.make "k.pem" "c.pem" 0 365 "host1" "example.com" 2048
       false)
     ⟨fun _ => true, true, true, false, true, true⟩ 0
     ⟨"error signing certificate request"⟩ rfl⟩

/-! ## Entropy manager -/

/-- Bytes obtainable from each randomness source during one run: the blocking
hardware device, the non-blocking pseudo-random device, and the persisted
user seed file. -/
structure EntropySources where
  devRandomAvail : Nat
  devUrandomAvail : Nat
  userFileAvail : Nat
deriving DecidableEq

/-- Modelled from the spec: the body of `SCXSSLCertificate::LoadRndNumber` is
not under `src/` (the header only declares it).  Per the spec it attempts, in
order, the hardware randomness device, the non-blocking pseudo-random device
and the user seed file, each step contributing at most the remaining need,
accumulating until the target byte count is reached or all sources are
exhausted; if the total falls short of the target, `DisplaySeedWarning` emits
a shortfall diagnostic and generation proceeds regardless.  Returns the total
bytes collected and whether the seed warning was displayed. -/
def LoadRndNumber (src : EntropySources) (target : Nat) : Nat × Bool :=
  let fromDevRandom := min src.devRandomAvail target
  let fromDevUrandom := min src.devUrandomAvail (target - fromDevRandom)
  let fromUserFile :=
    min src.userFileAvail (target - fromDevRandom - fromDevUrandom)
  let total := fromDevRandom + fromDevUrandom + fromUserFile
  (total, decide (total < target))

/-- Modelled from the spec: the body of `SCXSSLCertificate::Generate` is not
under `src/` (the header only declares it).  Per the spec's control flow the
generator seeds entropy via `LoadRndNumber` and then performs the generation
sequence; an entropy shortfall only triggers the warning and never aborts.
Returns whether the seed warning was displayed together with the generation
run. -/
def Generate (c : SCXSSLCertificate) (env : CryptoEnv) (src : EntropySources)
    (target : Nat) (now : Int) :
    Bool × (List GenEvent × Except SCXSSLException Certificate) :=
  ((LoadRndNumber src target).2, DoGenerate c env now)

/-- C4: When all randomness sources together yield fewer bytes than the
target, the shortfall warning is emitted via `DisplaySeedWarning`, the
generation sequence is exactly the one an unstarved run would perform, and —
when the cryptographic steps are available — generation still completes with
a certificate. -/
theorem entropy_shortfall_nonfatal (c : SCXSSLCertificate) (env : CryptoEnv)
    (src : EntropySources) (target : Nat) (now : Int)
    (hshort : (LoadRndNumber src target).1 < target)
    (hdays : c.m_startDays < c.m_endDays)
    (hbits : env.supportedBits c.m_bits = true)
    (hok : env.keygenOk = true ∧ env.requestOk = true ∧ env.signOk = true
            ∧ env.writeKeyOk = true ∧ env.writeCertOk = true) :
    (Generate c env src target now).1 = true
      ∧ (Generate c env src target now).2 = DoGenerate c env now
      ∧ ∃ cert, (Generate c env src target now).2.2 = Except.ok cert := by
  obtain ⟨h1, h2, h3, h4, h5⟩ := hok
  refine ⟨decide_eq_true hshort, rfl, ?_⟩
  refine ⟨⟨c.m_hostname ++ "." ++ c.m_domainname,
    now + c.m_startDays * secondsPerDay, now + c.m_endDays * secondsPerDay,
    c.m_bits⟩, ?_⟩
  simp [Generate, DoGenerate, hdays, hbits, h1, h2, h3, h4, h5]

/-- C4 witness: with every source starved (zero bytes against a target of
256) the warning fires and generation still yields a certificate. -/
theorem entropy_shortfall_witness :
    (LoadRndNumber ⟨0, 0, 0⟩ 256).1 < 256
      ∧ ((Generate (SCXSSLCertificate.make "k.pem" "c.pem" 0 365 "host1"
            "example.com" 2048 false)
            ⟨fun _ => true, true, true, true, true, true⟩ ⟨0, 0, 0⟩ 256 0).1
          = true
        ∧ (Generate (SCXSSLCertificate.make "k.pem" "c.pem" 0 365 "host1"
            "example.com" 2048 false)
            ⟨fun _ => true, true, true, true, true, true⟩ ⟨0, 0, 0⟩ 256 0).2
          = DoGenerate (SCXSSLCertificate.make "k.pem" "c.pem" 0 365 "host1"
              "example.com" 2048 false)
              ⟨fun _ => true, true, true, true, true, true⟩ 0
        ∧ ∃ cert,
            (Generate (SCXSSLCertificate.make "k.pem" "c.pem" 0 365 "host1"
              "example.com" 2048 false)
              ⟨fun _ => true, true, true, true, true, true⟩ ⟨0, 0, 0⟩ 256 0).2.2
            = Except.ok cert) :=
  ⟨by decide,
   entropy_shortfall_nonfatal
     (SCXSSLCertificate.make "k.pem" "c.pem" 0 365 "host1" "example.com" 2048
       false)
     ⟨fun _ => true, true, true, true, true, true⟩ ⟨0, 0, 0⟩ 256 0
     (by decide) (by decide) rfl ⟨rfl, rfl, rfl, rfl, rfl⟩⟩

/-! ## Username errno exception (header lines 190-223, inline bodies) -/

/-- State of `SCXErrnoUserNameException` (header lines 202-204, 219-222): the
constructor stores `fkncall` and `user` in its own members and forwards
`fkncall` and `errno_` to the `SCXErrnoException` base, which keeps the errno
value (`m_errno`) and its system error text (`m_errtext`, produced outside
this header). -/
structure SCXErrnoUserNameException where
  m_fkncall : String
  m_user : String
  m_errno : Int
  m_errtext : String

/-- Member `What()` (header lines 206-211), streaming the literal pieces and
members in source order. -/
def SCXErrnoUserNameException.What (e : SCXErrnoUserNameException) : String :=
  "Calling " ++ e.m_fkncall ++ "() with user name parameter\"" ++ e.m_user
    ++ "\", returned an error with errno = " ++ toString e.m_errno
    ++ " (" ++ e.m_errtext ++ ")"

/-- Member `GetFnkcall()` (header line 216). -/
def SCXErrnoUserNameException.GetFnkcall (e : SCXErrnoUserNameException) :
    String :=
  e.m_fkncall

/-- Member `GetUser()` (header line 218). -/
def SCXErrnoUserNameException.GetUser (e : SCXErrnoUserNameException) :
    String :=
  e.m_user

/-- One text occurs inside another: the larger text splits around it. -/
def containsStr (s sub : String) : Prop :=
  ∃ p q, s = p ++ (sub ++ q)

/-- Failure taxonomy of the subsystem: cryptographic failures
(`SCXSSLException`) and user-identity failures
(`SCXErrnoUserNameException`) are distinct alternatives. -/
inductive CertFailure
  | ssl (e : SCXSSLException)
  | userName (e : SCXErrnoUserNameException)

/-- C9: An `SCXErrnoUserNameException` built from a function-call name, a
user identity string and an errno carries all three: `GetFnkcall()` returns
the call name, `GetUser()` returns the user, `What()` contains the call name,
the user name and the errno value, and the type is a failure alternative
distinct from the cryptographic `SCXSSLException`. -/
theorem errno_username_exception_carries_fields (fkncall user : String)
    (errno_ : Int) (errtext : String) :
    (SCXErrnoUserNameException.mk fkncall user errno_ errtext).GetFnkcall
        = fkncall
      ∧ (SCXErrnoUserNameException.mk fkncall user errno_ errtext).GetUser
        = user
      ∧ containsStr
          (SCXErrnoUserNameException.mk fkncall user errno_ errtext).What
          fkncall
      ∧ containsStr
          (SCXErrnoUserNameException.mk fkncall user errno_ errtext).What
          user
      ∧ containsStr
          (SCXErrnoUserNameException.mk fkncall user errno_ errtext).What
          (toString errno_)
      ∧ ∀ (a : SCXSSLException) (b : SCXErrnoUserNameException),
          CertFailure.ssl a ≠ CertFailure.userName b := by
  refine ⟨rfl, rfl, ?_, ?_, ?_, fun a b h => CertFailure.noConfusion h⟩
  · exact ⟨"Calling ",
      "() with user name parameter\"" ++ user
        ++ "\", returned an error with errno = " ++ toString errno_
        ++ " (" ++ errtext ++ ")",
      by simp [SCXErrnoUserNameException.What, String.append_assoc]⟩
  · exact ⟨"Calling " ++ fkncall ++ "() with user name parameter\"",
      "\", returned an error with errno = " ++ toString errno_
        ++ " (" ++ errtext ++ ")",
      by simp [SCXErrnoUserNameException.What, String.append_assoc]⟩
  · exact ⟨"Calling " ++ fkncall ++ "() with user name parameter\"" ++ user
        ++ "\", returned an error with errno = ",
      " (" ++ errtext ++ ")",
      by simp [SCXErrnoUserNameException.What, String.append_assoc]⟩

end SCXSSL
